import Mathlib

/-!
Shallow embedding of the currency-conversion widget
(`src/script.js` and `src/unnamed/part_000`).

JS numbers are modelled as rationals (`ℚ`); the external API response is an
explicit datatype; the DOM view is a record of visibility flags and rendered
text fields; the asynchronous request/response round-trip is flattened into a
pure state-transition function taking the fetch outcome as an argument.
-/

/-- One element of the API's `serie` array: `{ fecha, valor }`. -/
structure Obs where
  fecha : String
  valor : ℚ
  deriving Repr, DecidableEq

/-- The parsed JSON body: its `serie` field may be absent (`none`). -/
structure ApiData where
  serie : Option (List Obs)
  deriving Repr, DecidableEq

/-- Outcome of the `fetch` call: the fetch itself may reject (network error),
or deliver a response with an `ok` flag and a JSON body. -/
inductive FetchOutcome where
  | networkError
  | response (ok : Bool) (data : ApiData)
  deriving Repr, DecidableEq

/-- The five result text fields written by `displayResult`.
`targetCurrency` is `none` when the JS table lookup yields `undefined`. -/
structure ResultFields where
  originalAmount : String
  targetCurrency : Option String
  exchangeRate : String
  convertedAmount : String
  updateDate : String
  deriving Repr, DecidableEq

/-- View state of the chart-enabled version (`src/unnamed/part_000`):
visibility flags of the four regions, the submit control's disabled flag, the
error paragraph text, the rendered result fields, the chart dataset handed to
the charting library, and the `currencyChart` variable modelled as an optional
instance id.  `nextChartId` supplies fresh ids; `aliveCharts` counts chart
instances created and not yet destroyed (a resource ledger for the external
library's handles). -/
structure ViewState where
  loadingVisible : Bool
  resultVisible : Bool
  errorVisible : Bool
  chartVisible : Bool
  btnDisabled : Bool
  errorMessage : String
  resultFields : ResultFields
  chartLabels : List String
  chartValues : List ℚ
  chart : Option Nat
  nextChartId : Nat
  aliveCharts : Nat
  deriving Repr, DecidableEq

/-- Initial view: all regions carry the `hidden` class, no chart exists. -/
def initState : ViewState :=
  { loadingVisible := false
    resultVisible := false
    errorVisible := false
    chartVisible := false
    btnDisabled := false
    errorMessage := ""
    resultFields := ⟨"", none, "", "", ""⟩
    chartLabels := []
    chartValues := []
    chart := none
    nextChartId := 0
    aliveCharts := 0 }

/-! ### JS builtins used by the widget -/

/-- Whitespace accepted by `parseFloat` before the number. -/
def isWhitespaceChar (c : Char) : Bool :=
  c == ' ' || c == '\t' || c == '\n' || c == '\r'

/-- Value of a list of decimal digit characters, most significant first. -/
def digitsVal (ds : List Char) : ℕ :=
  ds.foldl (fun a c => 10 * a + (c.toNat - 48)) 0

/-- Exponent part of a JS decimal literal: after `e`/`E`, an optional sign and
digits scale the mantissa; if no digit follows, the exponent marker is not part
of the longest valid numeric literal and the mantissa stands alone. -/
def applyExp (mantissa : ℚ) (rest : List Char) : ℚ :=
  match rest with
  | '-' :: ds =>
      let eds := ds.takeWhile Char.isDigit
      if eds.isEmpty then mantissa else mantissa / (10 : ℚ) ^ digitsVal eds
  | '+' :: ds =>
      let eds := ds.takeWhile Char.isDigit
      if eds.isEmpty then mantissa else mantissa * (10 : ℚ) ^ digitsVal eds
  | ds =>
      let eds := ds.takeWhile Char.isDigit
      if eds.isEmpty then mantissa else mantissa * (10 : ℚ) ^ digitsVal eds

/-- JS `parseFloat`: skip leading whitespace, read an optional sign, then the
longest decimal-literal head of the string (`digits [. digits]` or
`. digits`, optionally followed by an exponent); trailing garbage is ignored.
`none` models `NaN` (no parseable numeric head at all).  The special literal
`Infinity` is not modelled; no claim touches it. -/
def parseFloat (s : String) : Option ℚ :=
  let cs := s.data.dropWhile isWhitespaceChar
  let signAndRest : ℚ × List Char :=
    match cs with
    | '-' :: rest => (-1, rest)
    | '+' :: rest => (1, rest)
    | _ => (1, cs)
  let sgn := signAndRest.1
  let intDs := signAndRest.2.takeWhile Char.isDigit
  let afterInt := signAndRest.2.dropWhile Char.isDigit
  let fracDs :=
    match afterInt with
    | '.' :: rest => rest.takeWhile Char.isDigit
    | _ => []
  let afterFrac :=
    match afterInt with
    | '.' :: rest => rest.dropWhile Char.isDigit
    | _ => afterInt
  if intDs.isEmpty && fracDs.isEmpty then none
  else
    let mantissa : ℚ :=
      (digitsVal intDs : ℚ) + (digitsVal fracDs : ℚ) / (10 : ℚ) ^ fracDs.length
    let value : ℚ :=
      match afterFrac with
      | 'e' :: rest => applyExp mantissa rest
      | 'E' :: rest => applyExp mantissa rest
      | _ => mantissa
    some (sgn * value)

/-- Rounding used by `Intl.NumberFormat` (default mode, half away from zero). -/
def roundHalfExpand (q : ℚ) : ℤ :=
  if 0 ≤ q then ⌊q + 1 / 2⌋ else -⌊-q + 1 / 2⌋

/-- Decimal digit character for `n % 10`. -/
def digitChar (n : ℕ) : Char :=
  Char.ofNat (48 + n % 10)

/-- Exactly `d` decimal digits of `n` (most significant first, zero padded);
high digits beyond `d` are dropped, as we only apply it to `n < 10 ^ d`. -/
def digitsFixed : ℕ → ℕ → List Char
  | 0, _ => []
  | d + 1, n => digitsFixed d (n / 10) ++ [digitChar n]

/-- Insert the es-CL thousands separator every three digits, working on the
reversed digit list. -/
def groupRev : List Char → List Char
  | a :: b :: c :: d :: rest => a :: b :: c :: '.' :: groupRev (d :: rest)
  | l => l

/-- Group an MSB-first digit list with `.` thousands separators (es-CL). -/
def group3 (ds : List Char) : List Char :=
  (groupRev ds.reverse).reverse

/-- Embeds `formatNumber` from the source: `Intl.NumberFormat('es-CL', {min/max
FractionDigits: d})`.  The external formatter is modelled per its fixed
contract for the es-CL locale: `.` thousands grouping, `,` decimal separator,
exactly `d` fraction digits, ties rounded away from zero. -/
def formatNumber (q : ℚ) (d : ℕ) : String :=
  let scaled := roundHalfExpand (q * (10 : ℚ) ^ d)
  let n := scaled.natAbs
  let signStr : String := if scaled < 0 then "-" else ""
  let ipStr : String := String.mk (group3 (Nat.toDigits 10 (n / 10 ^ d)))
  if d = 0 then signStr ++ ipStr
  else signStr ++ ipStr ++ "," ++ String.mk (digitsFixed d (n % 10 ^ d))

/-- The external `new Date(fecha).toLocaleDateString('es-CL')` rendering is a
library capability outside the repository; it is abstracted as a deterministic
function of the raw date string. -/
def toLocaleDateString (fecha : String) : String :=
  fecha

/-- The per-point short label `toLocaleDateString('es-CL', {weekday, month,
day})` computed in `createChart`, likewise abstracted as a deterministic
function of the raw date string. -/
def chartDateLabel (fecha : String) : String :=
  fecha

/-! ### Fixed tables and messages -/

/-- The `currencyNames` table; `none` models a JS `undefined` lookup. -/
def currencyName (c : String) : Option String :=
  if c = "dolar" then some "Dólar Americano (USD)"
  else if c = "euro" then some "Euro (EUR)"
  else if c = "uf" then some "Unidad de Fomento (UF)"
  else if c = "utm" then some "Unidad Tributaria Mensual (UTM)"
  else if c = "dolar_intercambio" then some "Dólar Intercambio"
  else none

/-- The fixed five-code enumeration of the currency selector. -/
def currencyCodes : List String :=
  ["dolar", "euro", "uf", "utm", "dolar_intercambio"]

def invalidAmountMsg : String :=
  "Por favor, ingresa un monto válido mayor a 0."

def selectCurrencyMsg : String :=
  "Por favor, selecciona una moneda de destino."

def genericErrorMsg : String :=
  "Error al obtener los datos de conversión. Verifica tu conexión a internet e intenta nuevamente."

/-! ### The chart-enabled version (`src/unnamed/part_000`) -/

def showLoading (s : ViewState) : ViewState :=
  { s with loadingVisible := true, btnDisabled := true }

def hideLoading (s : ViewState) : ViewState :=
  { s with loadingVisible := false, btnDisabled := false }

def showResult (s : ViewState) : ViewState :=
  { s with resultVisible := true }

def hideResult (s : ViewState) : ViewState :=
  { s with resultVisible := false }

def showError (s : ViewState) (message : String) : ViewState :=
  { s with errorMessage := message, errorVisible := true }

def hideError (s : ViewState) : ViewState :=
  { s with errorVisible := false }

def showChart (s : ViewState) : ViewState :=
  { s with chartVisible := true }

def hideChart (s : ViewState) : ViewState :=
  { s with chartVisible := false }

/-- Embeds `calculateConversion(amount, exchangeRate, currency)`: the same division
for every currency kind; the `currency` argument is accepted and ignored. -/
def calculateConversion (amount exchangeRate : ℚ) (currency : String) : ℚ :=
  amount / exchangeRate

/-- Embeds `getCurrencySymbol`: fixed table with fallback `currency.toUpperCase()`. -/
def getCurrencySymbol (currency : String) : String :=
  if currency = "dolar" then "USD"
  else if currency = "dolar_intercambio" then "USD"
  else if currency = "euro" then "EUR"
  else if currency = "uf" then "UF"
  else if currency = "utm" then "UTM"
  else currency.toUpper

/-- Embeds `formatConvertedAmount`: UF/UTM render with 4 fraction digits and a
trailing symbol; every other code with a leading symbol and 2 fraction
digits. -/
def formatConvertedAmount (amount : ℚ) (currency : String) : String :=
  let symbol := getCurrencySymbol currency
  if currency = "uf" ∨ currency = "utm" then
    formatNumber amount 4 ++ " " ++ symbol
  else
    symbol ++ " " ++ formatNumber amount 2

/-- Embeds `displayResult`: write the five result fields and unhide the result
region. -/
def displayResult (s : ViewState) (originalAmount : ℚ) (currency : String)
    (exchangeRate convertedAmount : ℚ) (updateDate : String) : ViewState :=
  showResult
    { s with
      resultFields :=
        { originalAmount := formatNumber originalAmount 0
          targetCurrency := currencyName currency
          exchangeRate := formatNumber exchangeRate 0
          convertedAmount := formatConvertedAmount convertedAmount currency
          updateDate := updateDate } }

/-- Embeds `createChart(currency, serie)`: take `serie.slice(0, 3).reverse()`, derive
labels and values, destroy the previous chart instance if one exists, create a
fresh instance, unhide the chart region.  (The canvas lookup, colors and chart
options configure the external library and carry no data the claims touch.) -/
def createChart (s : ViewState) (currency : String) (serie : List Obs) : ViewState :=
  let last3 := (serie.take 3).reverse
  let labels := last3.map (fun it => chartDateLabel it.fecha)
  let values := last3.map (fun it => it.valor)
  let s1 :=
    match s.chart with
    | some _ => { s with chart := none, aliveCharts := s.aliveCharts - 1 }
    | none => s
  let s2 :=
    { s1 with
      chart := some s1.nextChartId
      nextChartId := s1.nextChartId + 1
      aliveCharts := s1.aliveCharts + 1
      chartLabels := labels
      chartValues := values }
  showChart s2

/-- Embeds `convertCurrency(amount, currency)` flattened over the fetch outcome:
show loading and hide error/result/chart; on a non-ok response or an
absent/empty `serie`, the thrown error is caught and the one generic message
shown; on success the head observation drives the computation, the result is
displayed and the chart rebuilt; `finally` always hides loading. -/
def convertCurrency (s : ViewState) (amount : ℚ) (currency : String)
    (outcome : FetchOutcome) : ViewState :=
  let s0 := hideChart (hideResult (hideError (showLoading s)))
  let s1 :=
    match outcome with
    | .networkError => showError s0 genericErrorMsg
    | .response ok data =>
        if !ok then showError s0 genericErrorMsg
        else
          match data.serie with
          | none => showError s0 genericErrorMsg
          | some [] => showError s0 genericErrorMsg
          | some (latest :: rest) =>
              let exchangeRate := latest.valor
              let updateDate := toLocaleDateString latest.fecha
              let convertedAmount := calculateConversion amount exchangeRate currency
              let s' := displayResult s0 amount currency exchangeRate convertedAmount updateDate
              createChart s' currency (latest :: rest)
  hideLoading s1

/-- Embeds `handleConversion` flattened: parse the amount, run the two validation
checks (`!amount || amount <= 0`, empty currency), and only then enter
`convertCurrency`.  The boolean records whether the network request was
issued. -/
def handleConversion (s : ViewState) (amountRaw selectedCurrency : String)
    (outcome : FetchOutcome) : ViewState × Bool :=
  match parseFloat amountRaw with
  | none => (showError s invalidAmountMsg, false)
  | some amount =>
      if amount = 0 ∨ amount ≤ 0 then (showError s invalidAmountMsg, false)
      else if selectedCurrency = "" then (showError s selectCurrencyMsg, false)
      else (convertCurrency s amount selectedCurrency outcome, true)

/-! ### Event layer (`addEventListener` wiring of `part_000`) -/

/-- User-visible events: a form submission (carrying the raw field contents
and the fetch outcome the API would deliver), an `input` event on the amount
field, a `change` event on the currency selector, and the (unwired)
`clearForm`. -/
inductive Event where
  | submit (amountRaw selectedCurrency : String) (outcome : FetchOutcome)
  | amountEdit
  | currencyChange
  | clearForm
  deriving Repr, DecidableEq

/-- One event dispatch.  The amount `input` listener only hides the error;
the currency `change` listener hides error and chart and destroys the chart
instance; `clearForm` (never attached to an event in the source, but kept for
completeness) hides result/error/chart and destroys the chart instance. -/
def step (s : ViewState) : Event → ViewState
  | .submit raw cur o => (handleConversion s raw cur o).1
  | .amountEdit => hideError s
  | .currencyChange =>
      let s1 := hideChart (hideError s)
      match s1.chart with
      | some _ => { s1 with chart := none, aliveCharts := s1.aliveCharts - 1 }
      | none => s1
  | .clearForm =>
      let s1 := hideChart (hideError (hideResult s))
      match s1.chart with
      | some _ => { s1 with chart := none, aliveCharts := s1.aliveCharts - 1 }
      | none => s1

/-- The view state reached from startup by a sequence of events. -/
def reach (evs : List Event) : ViewState :=
  evs.foldl step initState

/-! ### The chart-free version (`src/script.js`)

Here `script.js` is embedded on its own, function by function, so the two versions
can be compared; its view has no chart section. -/

namespace SJ

/-- View state of `src/script.js`: as `ViewState` but with no chart region,
no chart dataset and no `currencyChart` variable. -/
structure SJViewState where
  loadingVisible : Bool
  resultVisible : Bool
  errorVisible : Bool
  btnDisabled : Bool
  errorMessage : String
  resultFields : ResultFields
  deriving Repr, DecidableEq

def showLoading (s : SJViewState) : SJViewState :=
  { s with loadingVisible := true, btnDisabled := true }

def hideLoading (s : SJViewState) : SJViewState :=
  { s with loadingVisible := false, btnDisabled := false }

def showResult (s : SJViewState) : SJViewState :=
  { s with resultVisible := true }

def hideResult (s : SJViewState) : SJViewState :=
  { s with resultVisible := false }

def showError (s : SJViewState) (message : String) : SJViewState :=
  { s with errorMessage := message, errorVisible := true }

def hideError (s : SJViewState) : SJViewState :=
  { s with errorVisible := false }

/-- Embeds `calculateConversion` of `script.js`: the same uniform division. -/
def calculateConversion (amount exchangeRate : ℚ) (currency : String) : ℚ :=
  amount / exchangeRate

/-- Embeds `getCurrencySymbol` of `script.js`. -/
def getCurrencySymbol (currency : String) : String :=
  if currency = "dolar" then "USD"
  else if currency = "dolar_intercambio" then "USD"
  else if currency = "euro" then "EUR"
  else if currency = "uf" then "UF"
  else if currency = "utm" then "UTM"
  else currency.toUpper

/-- Embeds `formatConvertedAmount` of `script.js`. -/
def formatConvertedAmount (amount : ℚ) (currency : String) : String :=
  let symbol := getCurrencySymbol currency
  if currency = "uf" ∨ currency = "utm" then
    formatNumber amount 4 ++ " " ++ symbol
  else
    symbol ++ " " ++ formatNumber amount 2

/-- Embeds `displayResult` of `script.js`. -/
def displayResult (s : SJViewState) (originalAmount : ℚ) (currency : String)
    (exchangeRate convertedAmount : ℚ) (updateDate : String) : SJViewState :=
  showResult
    { s with
      resultFields :=
        { originalAmount := formatNumber originalAmount 0
          targetCurrency := currencyName currency
          exchangeRate := formatNumber exchangeRate 0
          convertedAmount := formatConvertedAmount convertedAmount currency
          updateDate := updateDate } }

/-- Embeds `convertCurrency` of `script.js`: identical to the chart version except
that no chart region is hidden and no chart is built. -/
def convertCurrency (s : SJViewState) (amount : ℚ) (currency : String)
    (outcome : FetchOutcome) : SJViewState :=
  let s0 := hideResult (hideError (showLoading s))
  let s1 :=
    match outcome with
    | .networkError => showError s0 genericErrorMsg
    | .response ok data =>
        if !ok then showError s0 genericErrorMsg
        else
          match data.serie with
          | none => showError s0 genericErrorMsg
          | some [] => showError s0 genericErrorMsg
          | some (latest :: _) =>
              let exchangeRate := latest.valor
              let updateDate := toLocaleDateString latest.fecha
              let convertedAmount := calculateConversion amount exchangeRate currency
              displayResult s0 amount currency exchangeRate convertedAmount updateDate
  hideLoading s1

/-- Embeds `handleConversion` of `script.js` (same validation, then its own
`convertCurrency`). -/
def handleConversion (s : SJViewState) (amountRaw selectedCurrency : String)
    (outcome : FetchOutcome) : SJViewState × Bool :=
  match parseFloat amountRaw with
  | none => (showError s invalidAmountMsg, false)
  | some amount =>
      if amount = 0 ∨ amount ≤ 0 then (showError s invalidAmountMsg, false)
      else if selectedCurrency = "" then (showError s selectCurrencyMsg, false)
      else (convertCurrency s amount selectedCurrency outcome, true)

end SJ

/-- Forget the chart-specific parts of a `ViewState`, keeping the conversion
core the two source versions share. -/
def projSJ (s : ViewState) : SJ.SJViewState :=
  { loadingVisible := s.loadingVisible
    resultVisible := s.resultVisible
    errorVisible := s.errorVisible
    btnDisabled := s.btnDisabled
    errorMessage := s.errorMessage
    resultFields := s.resultFields }

/-! ### Derived predicates and sample data -/

/-- Failure causes of a conversion request: the fetch rejects, the HTTP status
is not in the success range, or the body's `serie` field is absent or empty. -/
def failureOutcome : FetchOutcome → Prop
  | .networkError => True
  | .response ok data => ok = false ∨ data.serie = none ∨ data.serie = some []

instance : DecidablePred failureOutcome := by
  intro o
  cases o with
  | networkError => exact .isTrue trivial
  | response ok data => exact inferInstanceAs (Decidable (_ ∨ _))

/-- Resource ledger invariant of the chart handle: the count of alive chart
instances matches the `currencyChart` variable (one when it holds an instance,
zero when it is `null`). -/
def chartInv (s : ViewState) : Prop :=
  s.aliveCharts = (if s.chart.isSome then 1 else 0)

instance : DecidablePred chartInv := by
  intro s
  exact inferInstanceAs (Decidable (_ = _))

/-- Number of characters after the last `,` of a rendered number (its fraction
digits; es-CL uses `,` as the decimal separator and `.` for grouping). -/
def fracLen (s : String) : ℕ :=
  (s.data.reverse.takeWhile (fun c => c != ',')).length

/-- A sample successful fetch: the three-observation series of the spec's
worked example, newest first. -/
def sampleOk : FetchOutcome :=
  .response true ⟨some [⟨"2024-01-03", 900⟩, ⟨"2024-01-02", 890⟩, ⟨"2024-01-01", 880⟩]⟩

/-! ### Helper lemmas -/

set_option maxRecDepth 40000

/-- A predicate preserved by every event dispatch holds along every event
fold. -/
theorem foldl_step_inv {P : ViewState → Prop}
    (hstep : ∀ s e, P s → P (step s e)) :
    ∀ evs : List Event, ∀ s : ViewState, P s → P (evs.foldl step s) := by
  intro evs
  induction evs with
  | nil => intro s hs; exact hs
  | cons e evs ih => intro s hs; exact ih (step s e) (hstep s e hs)

/-- Projections of `convertCurrency` that do not depend on the fetch outcome:
loading is hidden and the submit control re-enabled on every path. -/
theorem convertCurrency_loading (s : ViewState) (amount : ℚ) (currency : String)
    (o : FetchOutcome) :
    (convertCurrency s amount currency o).loadingVisible = false ∧
    (convertCurrency s amount currency o).btnDisabled = false := by
  constructor <;> rfl

/-- On every failure cause, `convertCurrency` shows the one generic error
message and leaves result and chart hidden. -/
theorem convertCurrency_failure (s : ViewState) (amount : ℚ) (currency : String)
    (o : FetchOutcome) (h : failureOutcome o) :
    (convertCurrency s amount currency o).errorVisible = true ∧
    (convertCurrency s amount currency o).errorMessage = genericErrorMsg ∧
    (convertCurrency s amount currency o).resultVisible = false ∧
    (convertCurrency s amount currency o).chartVisible = false := by
  cases o with
  | networkError =>
      simp [convertCurrency, showLoading, hideError, hideResult, hideChart,
        showError, hideLoading]
  | response ok data =>
      obtain ⟨serie⟩ := data
      cases ok with
      | false =>
          simp [convertCurrency, showLoading, hideError, hideResult, hideChart,
            showError, hideLoading]
      | true =>
          rcases h with h | h | h
          · exact absurd h (by simp)
          · simp only [ApiData.serie] at h
            subst h
            simp [convertCurrency, showLoading, hideError, hideResult, hideChart,
              showError, hideLoading]
          · simp only [ApiData.serie] at h
            subst h
            simp [convertCurrency, showLoading, hideError, hideResult, hideChart,
              showError, hideLoading]

/-- On a successful fetch with a non-empty series, `convertCurrency` shows the
result and the chart and hides the error. -/
theorem convertCurrency_success (s : ViewState) (amount : ℚ) (currency : String)
    (latest : Obs) (rest : List Obs) :
    (convertCurrency s amount currency (.response true ⟨some (latest :: rest)⟩)).resultVisible = true ∧
    (convertCurrency s amount currency (.response true ⟨some (latest :: rest)⟩)).chartVisible = true ∧
    (convertCurrency s amount currency (.response true ⟨some (latest :: rest)⟩)).errorVisible = false := by
  rcases hc : s.chart with _ | cid <;>
    simp [convertCurrency, showLoading, hideError, hideResult, hideChart,
      displayResult, showResult, createChart, showChart, hideLoading, hc]

/-! ### Claim theorems -/

/-- C1: for every valid submission (amount > 0, currency code in the fixed
enumeration) and every non-empty series returned by the API, the converted
amount rendered equals the amount divided by the `valor` of the head element
of the series, and `calculateConversion` applies that same division for every
currency kind. -/
theorem claim1_conversion_formula (s : ViewState) (amount : ℚ) (currency : String)
    (latest : Obs) (rest : List Obs)
    (hamt : 0 < amount) (hcur : currency ∈ currencyCodes) :
    (convertCurrency s amount currency
        (.response true ⟨some (latest :: rest)⟩)).resultFields.convertedAmount
      = formatConvertedAmount (amount / latest.valor) currency ∧
    ∀ (a r : ℚ) (c c' : String),
      calculateConversion a r c = a / r ∧
      calculateConversion a r c = calculateConversion a r c' := by
  constructor
  · rcases hc : s.chart with _ | cid <;>
      simp [convertCurrency, showLoading, hideError, hideResult, hideChart,
        displayResult, showResult, createChart, showChart, hideLoading,
        calculateConversion, hc]
  · intro a r c c'
    exact ⟨rfl, rfl⟩

/-- C1 witness: the theorem applied at the spec's worked example (amount 1000,
currency `dolar`, head rate 900). -/
theorem claim1_conversion_formula_witness :
    (convertCurrency initState 1000 "dolar"
        (.response true ⟨some [⟨"2024-01-03", 900⟩, ⟨"2024-01-02", 890⟩]⟩)).resultFields.convertedAmount
      = formatConvertedAmount ((1000 : ℚ) / 900) "dolar" ∧
    ∀ (a r : ℚ) (c c' : String),
      calculateConversion a r c = a / r ∧
      calculateConversion a r c = calculateConversion a r c' := by
  have h := claim1_conversion_formula initState 1000 "dolar"
    ⟨"2024-01-03", 900⟩ [⟨"2024-01-02", 890⟩]
    (by norm_num) (by simp [currencyCodes])
  exact h

/-- C3: the chart's label/value pairs are the first three series elements
(newest first) reversed to chronological order; a series shorter than three
contributes all its elements, reversed, with no padding. -/
theorem claim3_chart_pairs (s : ViewState) (currency : String)
    (o0 o1 o2 : Obs) (rest : List Obs) :
    ((createChart s currency (o0 :: o1 :: o2 :: rest)).chartLabels
        = [chartDateLabel o2.fecha, chartDateLabel o1.fecha, chartDateLabel o0.fecha] ∧
     (createChart s currency (o0 :: o1 :: o2 :: rest)).chartValues
        = [o2.valor, o1.valor, o0.valor]) ∧
    ((createChart s currency [o0, o1]).chartLabels
        = [chartDateLabel o1.fecha, chartDateLabel o0.fecha] ∧
     (createChart s currency [o0, o1]).chartValues = [o1.valor, o0.valor]) ∧
    ((createChart s currency [o0]).chartLabels = [chartDateLabel o0.fecha] ∧
     (createChart s currency [o0]).chartValues = [o0.valor]) ∧
    ((createChart s currency []).chartLabels = [] ∧
     (createChart s currency []).chartValues = []) := by
  rcases hc : s.chart with _ | cid <;>
    simp [createChart, showChart, hc]

/-- C4: every failure cause (fetch rejection, non-success HTTP status, absent
or empty `serie`) yields the same single generic error message with the error
region shown and the result and chart regions hidden. -/
theorem claim4_failures_collapsed (s : ViewState) (amount : ℚ) (currency : String)
    (o : FetchOutcome) (h : failureOutcome o) :
    (convertCurrency s amount currency o).errorVisible = true ∧
    (convertCurrency s amount currency o).errorMessage = genericErrorMsg ∧
    (convertCurrency s amount currency o).resultVisible = false ∧
    (convertCurrency s amount currency o).chartVisible = false := by
  exact convertCurrency_failure s amount currency o h

/-- C4 witness: the theorem applied to an HTTP failure and (packaged in the
same statement) the hypothesis checked at that input. -/
theorem claim4_failures_collapsed_witness :
    failureOutcome (.response false ⟨some [⟨"2024-01-03", 900⟩]⟩) ∧
    ((convertCurrency initState 1000 "dolar"
        (.response false ⟨some [⟨"2024-01-03", 900⟩]⟩)).errorVisible = true ∧
     (convertCurrency initState 1000 "dolar"
        (.response false ⟨some [⟨"2024-01-03", 900⟩]⟩)).errorMessage = genericErrorMsg ∧
     (convertCurrency initState 1000 "dolar"
        (.response false ⟨some [⟨"2024-01-03", 900⟩]⟩)).resultVisible = false ∧
     (convertCurrency initState 1000 "dolar"
        (.response false ⟨some [⟨"2024-01-03", 900⟩]⟩)).chartVisible = false) :=
  ⟨Or.inl rfl,
   claim4_failures_collapsed initState 1000 "dolar"
     (.response false ⟨some [⟨"2024-01-03", 900⟩]⟩) (Or.inl rfl)⟩

/-- C5: whatever the fetch outcome, a completed conversion request leaves the
loading indicator hidden and the submit control re-enabled. -/
theorem claim5_loading_always_cleared (s : ViewState) (amount : ℚ)
    (currency : String) (o : FetchOutcome) :
    (convertCurrency s amount currency o).loadingVisible = false ∧
    (convertCurrency s amount currency o).btnDisabled = false := by
  exact convertCurrency_loading s amount currency o

/-- C2: an amount that does not parse or parses non-positive, or an empty
currency code, is rejected with one of the two validation messages and no
network request is issued. -/
theorem claim2_validation_rejects (s : ViewState) (amountRaw selectedCurrency : String)
    (o : FetchOutcome)
    (h : parseFloat amountRaw = none ∨
         (∃ a, parseFloat amountRaw = some a ∧ a ≤ 0) ∨
         selectedCurrency = "") :
    (handleConversion s amountRaw selectedCurrency o).2 = false ∧
    (handleConversion s amountRaw selectedCurrency o).1.errorVisible = true ∧
    ((handleConversion s amountRaw selectedCurrency o).1.errorMessage = invalidAmountMsg ∨
     (handleConversion s amountRaw selectedCurrency o).1.errorMessage = selectCurrencyMsg) := by
  rcases h with h | ⟨a, ha, hle⟩ | h
  · simp [handleConversion, h, showError]
  · simp only [handleConversion, ha]
    rw [if_pos (Or.inr hle)]
    simp [showError]
  · cases hp : parseFloat amountRaw with
    | none => simp [handleConversion, hp, showError]
    | some a =>
        by_cases hz : a = 0 ∨ a ≤ 0
        · simp only [handleConversion, hp]
          rw [if_pos hz]
          simp [showError]
        · simp only [handleConversion, hp]
          rw [if_neg hz, if_pos h]
          simp [showError]

/-- C2 witness: the theorem applied to the non-numeric raw amount `"abc"`,
with the hypothesis checked there. -/
theorem claim2_validation_rejects_witness :
    parseFloat "abc" = none ∧
    ((handleConversion initState "abc" "dolar" sampleOk).2 = false ∧
     (handleConversion initState "abc" "dolar" sampleOk).1.errorVisible = true ∧
     ((handleConversion initState "abc" "dolar" sampleOk).1.errorMessage = invalidAmountMsg ∨
      (handleConversion initState "abc" "dolar" sampleOk).1.errorMessage = selectCurrencyMsg)) :=
  ⟨by with_unfolding_all decide,
   claim2_validation_rejects initState "abc" "dolar" sampleOk
     (Or.inl (by with_unfolding_all decide))⟩

/-- Auxiliary: `digitsFixed d n` always has exactly `d` characters. -/
theorem digitsFixed_length : ∀ (d n : ℕ), (digitsFixed d n).length = d := by
  intro d
  induction d with
  | zero => intro n; rfl
  | succ d ih =>
      intro n
      simp [digitsFixed, ih]

/-- Auxiliary: a digit character is never the decimal separator `,`. -/
theorem digitChar_ne_comma (n : ℕ) : (digitChar n != ',') = true := by
  have h10 : n % 10 < 10 := Nat.mod_lt _ (by norm_num)
  unfold digitChar
  set m := n % 10 with hm
  interval_cases m <;> decide

/-- Auxiliary: no character of `digitsFixed d n` is the decimal separator. -/
theorem digitsFixed_ne_comma : ∀ (d n : ℕ), ∀ c ∈ digitsFixed d n, (c != ',') = true := by
  intro d
  induction d with
  | zero => intro n c hc; simp [digitsFixed] at hc
  | succ d ih =>
      intro n c hc
      simp only [digitsFixed, List.mem_append, List.mem_singleton] at hc
      rcases hc with hc | hc
      · exact ih (n / 10) c hc
      · subst hc; exact digitChar_ne_comma n

/-- Auxiliary: `takeWhile` over a block satisfying the predicate followed by a
failing element returns exactly the block. -/
theorem takeWhile_append_block (p : Char → Bool) (xs : List Char) (y : Char)
    (ys : List Char) (hxs : ∀ c ∈ xs, p c = true) (hy : p y = false) :
    (xs ++ y :: ys).takeWhile p = xs := by
  induction xs with
  | nil => simp [List.takeWhile_cons, hy]
  | cons x xs ih =>
      have hx : p x = true := hxs x (by simp)
      simp only [List.cons_append, List.takeWhile_cons, hx, if_true]
      simp [ih (fun c hc => hxs c (by simp [hc]))]

/-- Auxiliary: for `d ≠ 0`, the rendered number has exactly `d` characters
after its decimal separator. -/
theorem fracLen_formatNumber (q : ℚ) (d : ℕ) (hd : d ≠ 0) :
    fracLen (formatNumber q d) = d := by
  unfold formatNumber fracLen
  rw [if_neg hd]
  have hcomma : ("," : String).data = [','] := rfl
  simp only [String.data_append, hcomma, List.reverse_append,
    List.reverse_cons, List.reverse_nil, List.nil_append, List.append_assoc,
    List.cons_append]
  rw [takeWhile_append_block _ _ ',' _
      (fun c hc => digitsFixed_ne_comma d _ c (List.mem_reverse.mp hc))
      (by decide)]
  simp [digitsFixed_length]

/-- C6: a UF/UTM converted amount renders as the 4-fraction-digit number
followed by the unit symbol; every other code renders as the symbol followed
by the 2-fraction-digit number; an unrecognized code falls back to its
uppercased self as the symbol. -/
theorem claim6_converted_amount_format (a : ℚ) (c : String) :
    ((c = "uf" ∨ c = "utm") →
        formatConvertedAmount a c = formatNumber a 4 ++ " " ++ getCurrencySymbol c ∧
        fracLen (formatNumber a 4) = 4) ∧
    (¬(c = "uf" ∨ c = "utm") →
        formatConvertedAmount a c = getCurrencySymbol c ++ " " ++ formatNumber a 2 ∧
        fracLen (formatNumber a 2) = 2) ∧
    (c ∉ currencyCodes → getCurrencySymbol c = c.toUpper) := by
  refine ⟨?_, ?_, ?_⟩
  · intro h
    refine ⟨?_, fracLen_formatNumber a 4 (by norm_num)⟩
    simp only [formatConvertedAmount]
    rw [if_pos h]
  · intro h
    refine ⟨?_, fracLen_formatNumber a 2 (by norm_num)⟩
    simp only [formatConvertedAmount]
    rw [if_neg h]
  · intro h
    simp only [currencyCodes, List.mem_cons, List.mem_singleton, not_or] at h
    obtain ⟨h1, h2, h3, h4, h5⟩ := h
    simp [getCurrencySymbol, h1, h2, h3, h4, h5]

/-- C6 witness: the theorem applied at amount 5/4 for the codes `uf`,
`dolar`, and the unrecognized `peso`. -/
theorem claim6_converted_amount_format_witness :
    (formatConvertedAmount (5 / 4) "uf"
        = formatNumber (5 / 4) 4 ++ " " ++ getCurrencySymbol "uf" ∧
     fracLen (formatNumber (5 / 4) 4) = 4) ∧
    (formatConvertedAmount (5 / 4) "dolar"
        = getCurrencySymbol "dolar" ++ " " ++ formatNumber (5 / 4) 2 ∧
     fracLen (formatNumber (5 / 4) 2) = 2) ∧
    getCurrencySymbol "peso" = ("peso" : String).toUpper :=
  ⟨(claim6_converted_amount_format (5 / 4) "uf").1 (Or.inl rfl),
   (claim6_converted_amount_format (5 / 4) "dolar").2.1 (by decide),
   (claim6_converted_amount_format (5 / 4) "peso").2.2 (by decide)⟩

/-- Auxiliary: the ledger invariant holds at startup. -/
theorem chartInv_init : chartInv initState := by
  simp [chartInv, initState]

/-- Auxiliary: from a ledger-consistent state, `createChart` destroys any
previous instance and leaves exactly the one fresh instance alive. -/
theorem chartInv_createChart (s : ViewState) (c : String) (serie : List Obs)
    (h : chartInv s) :
    chartInv (createChart s c serie) ∧ (createChart s c serie).aliveCharts = 1 := by
  rcases hc : s.chart with _ | cid
  · simp [chartInv, hc] at h
    simp [chartInv, createChart, showChart, hc, h]
  · simp [chartInv, hc] at h
    simp [chartInv, createChart, showChart, hc, h]

/-- Auxiliary: `convertCurrency` preserves the chart ledger invariant. -/
theorem chartInv_convertCurrency (s : ViewState) (amount : ℚ) (currency : String)
    (o : FetchOutcome) (h : chartInv s) :
    chartInv (convertCurrency s amount currency o) := by
  cases o with
  | networkError =>
      simpa [convertCurrency, chartInv, showLoading, hideError, hideResult,
        hideChart, showError, hideLoading] using h
  | response ok data =>
      obtain ⟨serie⟩ := data
      cases ok with
      | false =>
          simpa [convertCurrency, chartInv, showLoading, hideError, hideResult,
            hideChart, showError, hideLoading] using h
      | true =>
          rcases serie with _ | ⟨_ | ⟨latest, rest⟩⟩
          · simpa [convertCurrency, chartInv, showLoading, hideError, hideResult,
              hideChart, showError, hideLoading] using h
          · simpa [convertCurrency, chartInv, showLoading, hideError, hideResult,
              hideChart, showError, hideLoading] using h
          · rcases hc : s.chart with _ | cid
            · simp [chartInv, hc] at h
              simp [convertCurrency, chartInv, showLoading, hideError, hideResult,
                hideChart, displayResult, showResult, createChart, showChart,
                hideLoading, hc, h]
            · simp [chartInv, hc] at h
              simp [convertCurrency, chartInv, showLoading, hideError, hideResult,
                hideChart, displayResult, showResult, createChart, showChart,
                hideLoading, hc, h]

/-- Auxiliary: every event dispatch preserves the chart ledger invariant. -/
theorem chartInv_step (s : ViewState) (e : Event) (h : chartInv s) :
    chartInv (step s e) := by
  cases e with
  | submit raw cur o =>
      cases hp : parseFloat raw with
      | none => simpa [step, handleConversion, hp, chartInv, showError] using h
      | some a =>
          by_cases hz : a = 0 ∨ a ≤ 0
          · simp only [step, handleConversion, hp]
            rw [if_pos hz]
            simpa [chartInv, showError] using h
          · by_cases hcur : cur = ""
            · simp only [step, handleConversion, hp]
              rw [if_neg hz, if_pos hcur]
              simpa [chartInv, showError] using h
            · simp only [step, handleConversion, hp]
              rw [if_neg hz, if_neg hcur]
              exact chartInv_convertCurrency s a cur o h
  | amountEdit => simpa [step, chartInv, hideError] using h
  | currencyChange =>
      rcases hc : s.chart with _ | cid
      · simpa [step, chartInv, hideError, hideChart, hc] using h
      · simp [chartInv, hc] at h
        simp [step, chartInv, hideError, hideChart, hc, h]
  | clearForm =>
      rcases hc : s.chart with _ | cid
      · simpa [step, chartInv, hideError, hideResult, hideChart, hc] using h
      · simp [chartInv, hc] at h
        simp [step, chartInv, hideError, hideResult, hideChart, hc, h]

/-- Auxiliary: the chart ledger invariant holds in every reachable state. -/
theorem chartInv_reach (evs : List Event) : chartInv (reach evs) :=
  foldl_step_inv chartInv_step evs initState chartInv_init

/-- C7 counterexample: a reachable state holds a live chart instance, and an
amount-edit input event leaves that same instance alive and rendered — the
chart is not destroyed or replaced on editing the amount, contradicting the
claim's input-change clause. -/
theorem claim7_counterexample :
    (reach [.submit "100" "dolar" sampleOk]).chart = some 0 ∧
    (step (reach [.submit "100" "dolar" sampleOk]) .amountEdit).chart = some 0 ∧
    (step (reach [.submit "100" "dolar" sampleOk]) .amountEdit).aliveCharts = 1 := by
  with_unfolding_all decide

/-- C7 (amended): at most one chart instance is alive in every reachable
state; from any ledger-consistent state, creating a chart first disposes the
previously active instance, leaving exactly one alive; changing the currency
selection destroys the chart without replacement; editing the amount leaves
the chart instance untouched. -/
theorem claim7_amended_chart_lifecycle :
    (∀ evs : List Event, (reach evs).aliveCharts ≤ 1) ∧
    (∀ (s : ViewState) (c : String) (serie : List Obs), chartInv s →
        chartInv (createChart s c serie) ∧ (createChart s c serie).aliveCharts = 1) ∧
    (∀ s : ViewState, chartInv s →
        (step s .currencyChange).chart = none ∧ (step s .currencyChange).aliveCharts = 0) ∧
    (∀ s : ViewState,
        (step s .amountEdit).chart = s.chart ∧ (step s .amountEdit).aliveCharts = s.aliveCharts) := by
  refine ⟨?_, ?_, ?_, ?_⟩
  · intro evs
    have h := chartInv_reach evs
    unfold chartInv at h
    rw [h]
    split <;> simp
  · exact chartInv_createChart
  · intro s h
    rcases hc : s.chart with _ | cid
    · simp [chartInv, hc] at h
      simp [step, hideError, hideChart, hc, h]
    · simp [chartInv, hc] at h
      simp [step, hideError, hideChart, hc, h]
  · intro s
    exact ⟨rfl, rfl⟩

/-- C7 witness: the amended theorem applied at a concrete trace, `initState`
(whose ledger is consistent), and a concrete series. -/
theorem claim7_amended_chart_lifecycle_witness :
    (reach [.submit "100" "dolar" sampleOk]).aliveCharts ≤ 1 ∧
    (createChart initState "dolar" [⟨"2024-01-03", 900⟩]).aliveCharts = 1 ∧
    (step initState .currencyChange).chart = none ∧
    (step initState .amountEdit).chart = initState.chart :=
  ⟨claim7_amended_chart_lifecycle.1 [.submit "100" "dolar" sampleOk],
   (claim7_amended_chart_lifecycle.2.1 initState "dolar" [⟨"2024-01-03", 900⟩]
      chartInv_init).2,
   (claim7_amended_chart_lifecycle.2.2.1 initState chartInv_init).1,
   (claim7_amended_chart_lifecycle.2.2.2 initState).1⟩

/-- Auxiliary: every event dispatch leaves the loading region hidden and the
submit control enabled (loading is visible only inside an in-flight request,
never in a quiescent state). -/
theorem loading_hidden_step (s : ViewState) (e : Event)
    (h : s.loadingVisible = false ∧ s.btnDisabled = false) :
    (step s e).loadingVisible = false ∧ (step s e).btnDisabled = false := by
  cases e with
  | submit raw cur o =>
      cases hp : parseFloat raw with
      | none => simpa [step, handleConversion, hp, showError] using h
      | some a =>
          by_cases hz : a = 0 ∨ a ≤ 0
          · simp only [step, handleConversion, hp]
            rw [if_pos hz]
            simpa [showError] using h
          · by_cases hcur : cur = ""
            · simp only [step, handleConversion, hp]
              rw [if_neg hz, if_pos hcur]
              simpa [showError] using h
            · simp only [step, handleConversion, hp]
              rw [if_neg hz, if_neg hcur]
              exact convertCurrency_loading s a cur o
  | amountEdit => simpa [step, hideError] using h
  | currencyChange =>
      rcases hc : s.chart with _ | cid <;>
        simpa [step, hideError, hideChart, hc] using h
  | clearForm =>
      rcases hc : s.chart with _ | cid <;>
        simpa [step, hideError, hideResult, hideChart, hc] using h

/-- C8 counterexample: after a successful conversion followed by a rejected
(non-numeric) submission, the result and chart regions of the earlier success
are still visible while the error region shows the validation message — the
error and result regions are visible simultaneously in a reachable state,
contradicting the claim. -/
theorem claim8_counterexample :
    (reach [.submit "100" "dolar" sampleOk, .submit "abc" "dolar" .networkError]).resultVisible = true ∧
    (reach [.submit "100" "dolar" sampleOk, .submit "abc" "dolar" .networkError]).chartVisible = true ∧
    (reach [.submit "100" "dolar" sampleOk, .submit "abc" "dolar" .networkError]).errorVisible = true := by
  with_unfolding_all decide

/-- C8 (amended): in every reachable quiescent state the loading region is
hidden and the submit control enabled; editing the amount or changing the
currency clears the error region; a failed request shows the error region and
hides result and chart; a successful request shows result and chart and hides
the error.  (A validation rejection, however, shows the error region without
hiding a result or chart left over from an earlier success, so error and
result can be visible simultaneously.) -/
theorem claim8_amended_region_discipline :
    (∀ evs : List Event,
        (reach evs).loadingVisible = false ∧ (reach evs).btnDisabled = false) ∧
    (∀ s : ViewState, (step s .amountEdit).errorVisible = false) ∧
    (∀ s : ViewState, (step s .currencyChange).errorVisible = false) ∧
    (∀ (s : ViewState) (a : ℚ) (c : String) (o : FetchOutcome), failureOutcome o →
        (convertCurrency s a c o).resultVisible = false ∧
        (convertCurrency s a c o).chartVisible = false ∧
        (convertCurrency s a c o).errorVisible = true) ∧
    (∀ (s : ViewState) (a : ℚ) (c : String) (latest : Obs) (rest : List Obs),
        (convertCurrency s a c (.response true ⟨some (latest :: rest)⟩)).resultVisible = true ∧
        (convertCurrency s a c (.response true ⟨some (latest :: rest)⟩)).chartVisible = true ∧
        (convertCurrency s a c (.response true ⟨some (latest :: rest)⟩)).errorVisible = false) := by
  refine ⟨?_, ?_, ?_, ?_, ?_⟩
  · intro evs
    exact foldl_step_inv loading_hidden_step evs initState ⟨rfl, rfl⟩
  · intro s; rfl
  · intro s
    rcases hc : s.chart with _ | cid <;> simp [step, hideError, hideChart, hc]
  · intro s a c o h
    obtain ⟨he, _, hr, hch⟩ := convertCurrency_failure s a c o h
    exact ⟨hr, hch, he⟩
  · intro s a c latest rest
    exact convertCurrency_success s a c latest rest

/-- C8 witness: the amended theorem applied at a concrete trace, a concrete
failing outcome (HTTP error) and a concrete successful outcome. -/
theorem claim8_amended_region_discipline_witness :
    ((reach [.submit "100" "dolar" sampleOk]).loadingVisible = false ∧
     (reach [.submit "100" "dolar" sampleOk]).btnDisabled = false) ∧
    (step initState .amountEdit).errorVisible = false ∧
    ((convertCurrency initState 1000 "dolar" (.response false ⟨none⟩)).resultVisible = false ∧
     (convertCurrency initState 1000 "dolar" (.response false ⟨none⟩)).chartVisible = false ∧
     (convertCurrency initState 1000 "dolar" (.response false ⟨none⟩)).errorVisible = true) ∧
    (convertCurrency initState 1000 "dolar"
        (.response true ⟨some [⟨"2024-01-03", 900⟩]⟩)).resultVisible = true :=
  ⟨claim8_amended_region_discipline.1 [.submit "100" "dolar" sampleOk],
   claim8_amended_region_discipline.2.1 initState,
   claim8_amended_region_discipline.2.2.2.1 initState 1000 "dolar"
     (.response false ⟨none⟩) (Or.inl rfl),
   (claim8_amended_region_discipline.2.2.2.2 initState 1000 "dolar"
     ⟨"2024-01-03", 900⟩ []).1⟩

/-- Auxiliary: the two versions define the same conversion arithmetic. -/
theorem SJ_calculateConversion_eq : SJ.calculateConversion = calculateConversion := rfl

/-- Auxiliary: the two versions define the same symbol table. -/
theorem SJ_getCurrencySymbol_eq : SJ.getCurrencySymbol = getCurrencySymbol := rfl

/-- Auxiliary: the two versions define the same converted-amount rendering. -/
theorem SJ_formatConvertedAmount_eq : SJ.formatConvertedAmount = formatConvertedAmount := rfl

/-- Auxiliary: the request pipelines of the two versions agree on the shared
view-state fields for every amount, currency and fetch outcome. -/
theorem convertCurrency_proj (s : ViewState) (a : ℚ) (c : String) (o : FetchOutcome) :
    SJ.convertCurrency (projSJ s) a c o = projSJ (convertCurrency s a c o) := by
  cases o with
  | networkError =>
      simp [SJ.convertCurrency, convertCurrency, projSJ, SJ.showLoading, showLoading,
        SJ.hideError, hideError, SJ.hideResult, hideResult, hideChart,
        SJ.showError, showError, SJ.hideLoading, hideLoading]
  | response ok data =>
      obtain ⟨serie⟩ := data
      cases ok with
      | false =>
          simp [SJ.convertCurrency, convertCurrency, projSJ, SJ.showLoading, showLoading,
            SJ.hideError, hideError, SJ.hideResult, hideResult, hideChart,
            SJ.showError, showError, SJ.hideLoading, hideLoading]
      | true =>
          rcases serie with _ | ⟨_ | ⟨latest, rest⟩⟩
          · simp [SJ.convertCurrency, convertCurrency, projSJ, SJ.showLoading, showLoading,
              SJ.hideError, hideError, SJ.hideResult, hideResult, hideChart,
              SJ.showError, showError, SJ.hideLoading, hideLoading]
          · simp [SJ.convertCurrency, convertCurrency, projSJ, SJ.showLoading, showLoading,
              SJ.hideError, hideError, SJ.hideResult, hideResult, hideChart,
              SJ.showError, showError, SJ.hideLoading, hideLoading]
          · rcases hc : s.chart with _ | cid <;>
              simp [SJ.convertCurrency, convertCurrency, projSJ, SJ.showLoading, showLoading,
                SJ.hideError, hideError, SJ.hideResult, hideResult, hideChart,
                SJ.showError, showError, SJ.hideLoading, hideLoading,
                SJ.displayResult, displayResult, SJ.showResult, showResult,
                createChart, showChart, hc,
                SJ_calculateConversion_eq, SJ_formatConvertedAmount_eq]

/-- C9: on identical raw input and identical API response, the chart-free
version (`src/script.js`) and the chart version (`src/unnamed/part_000`) make
the same validation decision, issue or suppress the network request alike, and
produce identical shared view-state output (visibility flags, messages and all
formatted result fields) — they differ only in chart handling. -/
theorem claim9_conversion_core_equivalent (s : ViewState) (raw cur : String)
    (o : FetchOutcome) :
    SJ.handleConversion (projSJ s) raw cur o
      = (projSJ (handleConversion s raw cur o).1, (handleConversion s raw cur o).2) := by
  cases hp : parseFloat raw with
  | none =>
      simp [SJ.handleConversion, handleConversion, hp, SJ.showError, showError, projSJ]
  | some a =>
      by_cases hz : a = 0 ∨ a ≤ 0
      · simp [SJ.handleConversion, handleConversion, hp, hz, SJ.showError, showError, projSJ]
      · by_cases hcur : cur = ""
        · simp [SJ.handleConversion, handleConversion, hp, hz, hcur,
            SJ.showError, showError, projSJ]
        · simp [SJ.handleConversion, handleConversion, hp, hz, hcur,
            convertCurrency_proj s a cur o]

/-- C10: the raw amount `"12abc"` — a numeric head followed by letters — is
accepted by validation with the head value 12 and a conversion is performed
with it, while `"abc"`, which has no numeric head, is rejected: the amount is
read with numeric-head parsing. -/
theorem claim10_numeric_head_accepted :
    parseFloat "12abc" = some 12 ∧
    (handleConversion initState "12abc" "dolar" sampleOk).2 = true ∧
    (handleConversion initState "12abc" "dolar" sampleOk).1.resultFields.convertedAmount
      = formatConvertedAmount ((12 : ℚ) / 900) "dolar" ∧
    parseFloat "abc" = none ∧
    (handleConversion initState "abc" "dolar" sampleOk).2 = false := by
  with_unfolding_all decide
